import Mathlib

/-!
Shallow embedding of `src/meme_agent.py` and `src/gradiomeme_agent_api.py`
(a meme-matching utility: a vector-similarity matcher over a chroma index
and an LLM re-ranker).  Python runtime constructs are modelled explicitly:
list indexing returns `Except` (IndexError), `int()` returns `Except`
(ValueError), pandas `NaN` descriptions are `Option.none`, and calls to
the external services (the sentence-transformer encoder, the chromadb
query, the Hugging Face chat completion, the gradio client) are parameters
of the embedded functions, so every claim is settled relative to an
arbitrary behaviour of those backends.
-/

namespace MemeAgent

/-- Python exceptions the embedded code can raise or catch. -/
inductive PyExc where
  | indexError (msg : String)
  | valueError (msg : String)
  | attributeError (msg : String)
deriving Repr, DecidableEq

/-- Python `str(e)` on a caught exception: its message. -/
def PyExc.toStr : PyExc → String
  | .indexError m => m
  | .valueError m => m
  | .attributeError m => m

/-- Python list indexing `xs[i]`: negative indices count from the end,
out of range raises IndexError. -/
def pyListGet {α : Type} (xs : List α) (i : Int) : Except PyExc α :=
  let j : Int := if i < 0 then i + xs.length else i
  if h : 0 ≤ j ∧ j.toNat < xs.length then .ok (xs.get ⟨j.toNat, h.2⟩)
  else .error (.indexError ("list index out of range"))

/-- pandas `df.iloc[i]` positional row access: negative indices count from
the end, out of range raises IndexError. -/
def ilocGet {α : Type} (xs : List α) (i : Int) : Except PyExc α :=
  let j : Int := if i < 0 then i + xs.length else i
  if h : 0 ≤ j ∧ j.toNat < xs.length then .ok (xs.get ⟨j.toNat, h.2⟩)
  else .error (.indexError ("single positional indexer is out-of-bounds"))

/-- One row of the meme catalogue CSV (`meme_db_path`): `description` is
`none` when the CSV cell is missing (pandas `NaN`). -/
structure Row where
  filename : String
  description : Option String
deriving Repr, DecidableEq

/-- A result dictionary built by the matchers; `none` marks a key that is
absent from the dictionary.  For `description`, `some none` is a present
key holding a pandas `NaN` value. -/
structure MatchResult where
  filename : Option String := none
  description : Option (Option String) := none
  similarity_score : Option Rat := none
  llm_selected : Option Bool := none
  error : Option String := none
deriving Repr, DecidableEq

/-- The chromadb `collection.query` result as read by the code: the `ids`
key (one list of hit identifiers per query embedding) and the optional
`distances` key.  A falsy result dict is modelled as `Option.none` at the
call site. -/
structure QueryResult where
  ids : List (List String)
  distances : Option (List (List Rat))
deriving Repr, DecidableEq

/-- Worker for Python `str.split(sep)` over the character list; `acc`
holds the current field reversed. -/
def pySplitChar (sep : Char) : List Char → List Char → List (List Char)
  | [], acc => [acc.reverse]
  | c :: cs, acc =>
    if c = sep then acc.reverse :: pySplitChar sep cs []
    else pySplitChar sep cs (c :: acc)

/-- Python `s.split(sep)` for a one-character separator. -/
def pySplit (s : String) (sep : Char) : List String :=
  (pySplitChar sep s.data []).map String.mk

/-- The Python `str.strip()` whitespace class (ASCII part). -/
def isPySpace (c : Char) : Bool :=
  c == ' ' || c == '\t' || c == '\n' || c == '\r' || c == '\x0b' || c == '\x0c'

/-- Python `str.strip()`. -/
def pyStrip (cs : List Char) : List Char :=
  ((cs.dropWhile isPySpace).reverse.dropWhile isPySpace).reverse

/-- Decimal value of a digit string (the value `int()` computes on it). -/
def digitsVal (cs : List Char) : Nat :=
  cs.foldl (fun a c => 10 * a + (c.toNat - 48)) 0

/-- Sign-and-digits part of Python `int(s)`, applied after stripping. -/
def pyIntParseStripped : List Char → Except PyExc Int
  | [] => .error (.valueError ("invalid literal for int() with base 10"))
  | c :: rest =>
    if c = '-' then
      if rest ≠ [] ∧ rest.all Char.isDigit then .ok (-(digitsVal rest : Int))
      else .error (.valueError ("invalid literal for int() with base 10"))
    else if c = '+' then
      if rest ≠ [] ∧ rest.all Char.isDigit then .ok ((digitsVal rest : Int))
      else .error (.valueError ("invalid literal for int() with base 10"))
    else
      if (c :: rest).all Char.isDigit then .ok ((digitsVal (c :: rest) : Int))
      else .error (.valueError ("invalid literal for int() with base 10"))

/-- Python `int(s)`: strip whitespace, optional sign, decimal digits;
anything else raises ValueError. -/
def pyIntParseChars (cs : List Char) : Except PyExc Int :=
  pyIntParseStripped (pyStrip cs)

/-- The decimal digit character for `n < 10` (and `9` above, unreachable
in use). -/
def digitChar (n : Nat) : Char :=
  if n = 0 then '0' else if n = 1 then '1' else if n = 2 then '2'
  else if n = 3 then '3' else if n = 4 then '4' else if n = 5 then '5'
  else if n = 6 then '6' else if n = 7 then '7' else if n = 8 then '8' else '9'

/-- Decimal digits of `n`, most significant first, as a Python f-string
renders a nonnegative int. -/
def decChars (n : Nat) : List Char :=
  if _h : n < 10 then [digitChar n]
  else decChars (n / 10) ++ [digitChar (n % 10)]
termination_by n
decreasing_by exact Nat.div_lt_self (by omega) (by omega)

/-- The synthetic chroma identifier `f"meme_{i}"` stored at population
time (`_populate_chroma_db`, line 63). -/
def memeId (i : Nat) : String :=
  String.mk ('m' :: 'e' :: 'm' :: 'e' :: '_' :: decChars i)

/-- Worker for `re.findall` of one-or-more ASCII digits: maximal digit
runs, left to right; `acc` holds the current run reversed. -/
def digitRunsAux : List Char → List Char → List (List Char)
  | [], acc => if acc.isEmpty then [] else [acc.reverse]
  | c :: cs, acc =>
    if c.isDigit then digitRunsAux cs (c :: acc)
    else if acc.isEmpty then digitRunsAux cs []
    else acc.reverse :: digitRunsAux cs []

/-- `re.findall` of one-or-more digits over the reply text (line 154). -/
def findallDigits (s : String) : List String :=
  (digitRunsAux s.data []).map String.mk

/-- Python truthiness of an optional string: `None` and `""` are falsy. -/
def pyTruthy : Option String → Bool
  | none => false
  | some s => if s = "" then false else true

/-- Python `a or b` on optional strings. -/
def pyOr (a b : Option String) : Option String :=
  match a with
  | none => b
  | some s => if s = "" then b else some s

/-- Replace a missing description by the empty string; this is the
per-row effect of the `fillna` call at line 54 of
`_populate_chroma_db`. -/
def fillnaRow (r : Row) : Row :=
  { filename := r.filename, description := some (r.description.getD ("")) }

/-- The identifier list `_populate_chroma_db` stores for a catalogue
(line 63). -/
def populateIds (meme_df : List Row) : List String :=
  (List.range meme_df.length).map memeId

/-- `str(e)` of the AttributeError raised on `self.client` access when the
constructor (lines 42-48) never assigned it. -/
def clientAttributeError : PyExc :=
  .attributeError ("\x27MemeFinder\x27 object has no attribute \x27client\x27")

/-- The state a `MemeFinder.__init__` call leaves behind: the catalogue
rows, the sentence-transformer encoder and the chroma collection query
(abstract total functions supplied as data), the `use_llm` flag, and
whether `self.client` was assigned. -/
structure MemeFinder where
  meme_df : List Row
  model : String → List Rat
  collectionQuery : List Rat → Nat → Option QueryResult
  use_llm : Bool
  client : Option Unit

/-- `MemeFinder.__init__` (lines 13-49): loads the catalogue, runs
`_populate_chroma_db` (and with it the `fillna` normalization of
descriptions) only when the persisted collection reports count zero, and
assigns `self.client` only when `use_llm` is set and a truthy token is
found (the `hf_token` argument first, else the HF_TOKEN environment
variable). -/
def mkMemeFinder (raw : List Row) (collectionCount : Nat)
    (model : String → List Rat)
    (collectionQuery : List Rat → Nat → Option QueryResult)
    (use_llm : Bool) (hf_token : Option String) (env_hf_token : Option String) :
    MemeFinder :=
  { meme_df := if collectionCount = 0 then raw.map fillnaRow else raw,
    model := model,
    collectionQuery := collectionQuery,
    use_llm := use_llm,
    client := if use_llm && pyTruthy (pyOr hf_token env_hf_token) then some () else none }

/-- The index parse at line 99:
`int(results["ids"][0][0].split("_")[1])`. -/
def parseMemeOrdinal (hitId : String) : Except PyExc Int :=
  (pyListGet (pySplit hitId '_') 1).bind fun part => pyIntParseChars part.data

/-- `_find_meme_with_similarity` (lines 84-106): encode the context, query
the collection, return the no-match error on a falsy result dict or an
empty outer id list, otherwise parse the first hit identifier, fetch the
catalogue row with `iloc`, and report the first distance (or `0.0` when
the `distances` key is absent) as the similarity score. -/
def find_meme_with_similarity (model : String → List Rat)
    (collectionQuery : List Rat → Nat → Option QueryResult)
    (meme_df : List Row) (context : String) (top_k : Nat) :
    Except PyExc MatchResult :=
  let context_embedding := model context
  match collectionQuery context_embedding top_k with
  | none => .ok { error := some ("No matching memes found") }
  | some results =>
    if results.ids = [] then .ok { error := some ("No matching memes found") }
    else
      (pyListGet results.ids 0).bind fun ids0 =>
        (pyListGet ids0 0).bind fun hit =>
          (parseMemeOrdinal hit).bind fun idx =>
            (ilocGet meme_df idx).bind fun meme =>
              (match results.distances with
               | some ds => (pyListGet ds 0).bind fun ds0 => pyListGet ds0 0
               | none => (Except.ok 0 : Except PyExc Rat)).bind fun score =>
                Except.ok { filename := some meme.filename,
                            description := some meme.description,
                            similarity_score := some score }

/-- The `try` block of `_find_meme_with_llm` (lines 130-183).  The remote
chat completion is modelled by `apiResult` (the reply text, or the
exception the transport raises); accessing a never-assigned `self.client`
raises AttributeError; `diag` is the value of the diagnostic cosine
similarity recomputed at lines 174-176 by the external encoder. -/
def llmTryBody (meme_df : List Row) (client : Option Unit)
    (apiResult : Except PyExc String) (diag : Rat) : Except PyExc MatchResult :=
  (match client with
   | none => (Except.error clientAttributeError : Except PyExc Unit)
   | some c => Except.ok c).bind fun _ =>
    apiResult.bind fun generated_text =>
      let numbers := findallDigits generated_text
      if numbers = [] then .ok { error := some ("No matching memes found") }
      else
        (pyListGet numbers (-1)).bind fun lastNumber =>
          (pyIntParseChars lastNumber.data).bind fun n =>
            let meme_idx : Int := n - 1
            if meme_idx < 0 ∨ meme_idx ≥ (meme_df.length : Int) then
              .ok { error := some ("No matching memes found") }
            else
              (ilocGet meme_df meme_idx).bind fun meme =>
                Except.ok { filename := some meme.filename,
                            description := some meme.description,
                            similarity_score := some diag,
                            llm_selected := some true }

/-- `_find_meme_with_llm` (lines 108-186): the `try`/`except Exception`
wrapper around the body, converting any raised exception `e` into
the dictionary with only the key
`error = "Error processing LLM response: " + str(e)`. -/
def find_meme_with_llm (meme_df : List Row) (client : Option Unit)
    (apiResult : Except PyExc String) (diag : Rat) : MatchResult :=
  match llmTryBody meme_df client apiResult diag with
  | .ok r => r
  | .error e => { error := some ("Error processing LLM response: " ++ e.toStr) }

/-- `find_relevant_meme` (lines 68-82): dispatch on `use_llm`. -/
def find_relevant_meme (mf : MemeFinder) (context : String)
    (apiResult : Except PyExc String) (diag : Rat) (top_k : Nat) :
    Except PyExc MatchResult :=
  if mf.use_llm then .ok (find_meme_with_llm mf.meme_df mf.client apiResult diag)
  else find_meme_with_similarity mf.model mf.collectionQuery mf.meme_df context top_k

/-- `GradioMemeAgent.find_relevant_meme` (`gradiomeme_agent_api.py`,
lines 19-28): `predictResult` is the value returned, or the exception
raised, by `self.client.predict(...)`. -/
def gradio_find_relevant_meme {α : Type} (predictResult : Except PyExc α) : Option α :=
  match predictResult with
  | .ok r => some r
  | .error _ => none

/-- Decision function of the LLM matcher once the 1-based answer `k` has
been read off the reply: reject `k = 0` and `k > N`, otherwise return the
catalogue entry at 0-based `k - 1` with `llm_selected = true`. -/
def llmDecision (meme_df : List Row) (k : Nat) (diag : Rat) : MatchResult :=
  if k = 0 ∨ meme_df.length < k then { error := some ("No matching memes found") }
  else
    match meme_df.get? (k - 1) with
    | some meme =>
      { filename := some meme.filename, description := some meme.description,
        similarity_score := some diag, llm_selected := some true }
    | none => { error := some ("No matching memes found") }

/-- Success shape of a result dictionary: filename, description and
similarity_score keys present, no error key. -/
def successShape (r : MatchResult) : Bool :=
  r.filename.isSome && r.description.isSome && r.similarity_score.isSome && r.error.isNone

/-- Error shape of a result dictionary: only the error key is present. -/
def errorShape (r : MatchResult) : Bool :=
  r.error.isSome && r.filename.isNone && r.description.isNone &&
    r.similarity_score.isNone && r.llm_selected.isNone

/-- A trivial encoder, for concrete instantiations. -/
def zeroModel : String → List Rat := fun _ => []

/-- A collection query returning the falsy result dict. -/
def noneQuery : List Rat → Nat → Option QueryResult := fun _ _ => none

/-- The result chromadb produces for a query against an empty collection:
one empty hit list per query embedding, so `ids = [[]]`. -/
def emptyHitQuery : List Rat → Nat → Option QueryResult :=
  fun _ _ => some { ids := [[]], distances := some [[]] }

/-! ### Helper lemmas about the Python-runtime model -/

instance instDecEqExcept {ε α : Type} [DecidableEq ε] [DecidableEq α] :
    DecidableEq (Except ε α) := fun a b =>
  match a, b with
  | .ok x, .ok y =>
    if h : x = y then .isTrue (congrArg Except.ok h)
    else .isFalse fun hc => h (Except.ok.inj hc)
  | .ok _, .error _ => .isFalse fun hc => Except.noConfusion hc
  | .error _, .ok _ => .isFalse fun hc => Except.noConfusion hc
  | .error x, .error y =>
    if h : x = y then .isTrue (congrArg Except.error h)
    else .isFalse fun hc => h (Except.error.inj hc)

theorem pyListGet_eq_ok {α : Type} {l : List α} {i : Int} (k : Nat) (hk : k < l.length)
    (hik : (if i < 0 then i + (l.length : Int) else i) = (k : Int)) :
    pyListGet l i = .ok (l.get ⟨k, hk⟩) := by
  have h0 : 0 ≤ (if i < 0 then i + (l.length : Int) else i) := by
    rw [hik]
    omega
  have h1 : (if i < 0 then i + (l.length : Int) else i).toNat < l.length := by
    rw [hik]
    simpa using hk
  have hj : (if i < 0 then i + (l.length : Int) else i).toNat = k := by
    rw [hik]
    simp
  simp only [pyListGet]
  rw [dif_pos ⟨h0, h1⟩]
  subst hj
  rfl

theorem pyListGet_zero {α : Type} (a : α) (l : List α) : pyListGet (a :: l) 0 = .ok a :=
  pyListGet_eq_ok 0 (by simp) (by norm_num)

theorem pyListGet_pair_one {α : Type} (a b : α) : pyListGet [a, b] 1 = .ok b :=
  pyListGet_eq_ok 1 (by simp) (by norm_num)

theorem pyListGet_neg_one {α : Type} {l : List α} {a : α} (h : l.getLast? = some a) :
    pyListGet l (-1) = .ok a := by
  have hne : l ≠ [] := by
    intro hl
    rw [hl] at h
    simp at h
  have hlen : 1 ≤ l.length := by
    cases l with
    | nil => exact absurd rfl hne
    | cons c cs => simp
  have hget : l[l.length - 1]? = some a := by
    rw [← List.getLast?_eq_getElem?]
    exact h
  rcases List.getElem?_eq_some_iff.mp hget with ⟨hlt, hval⟩
  rw [pyListGet_eq_ok (l.length - 1) hlt (by rw [if_pos (by norm_num)]; omega)]
  simp only [List.get_eq_getElem]
  rw [hval]

theorem ilocGet_eq_ok {α : Type} {l : List α} {i : Int} (k : Nat) (hk : k < l.length)
    (hik : (if i < 0 then i + (l.length : Int) else i) = (k : Int)) :
    ilocGet l i = .ok (l.get ⟨k, hk⟩) := by
  have h0 : 0 ≤ (if i < 0 then i + (l.length : Int) else i) := by
    rw [hik]
    omega
  have h1 : (if i < 0 then i + (l.length : Int) else i).toNat < l.length := by
    rw [hik]
    simpa using hk
  have hj : (if i < 0 then i + (l.length : Int) else i).toNat = k := by
    rw [hik]
    simp
  simp only [ilocGet]
  rw [dif_pos ⟨h0, h1⟩]
  subst hj
  rfl

theorem ilocGet_nat {α : Type} {l : List α} {i : Nat} {a : α} (h : l.get? i = some a) :
    ilocGet l (i : Int) = .ok a := by
  rw [List.get?_eq_getElem?] at h
  rcases List.getElem?_eq_some_iff.mp h with ⟨hlt, hval⟩
  rw [ilocGet_eq_ok i hlt (by rw [if_neg (by omega)])]
  simp only [List.get_eq_getElem]
  rw [hval]

theorem dropWhile_eq_self_of {α : Type} {p : α → Bool} {l : List α}
    (h : ∀ c ∈ l, p c = false) : l.dropWhile p = l := by
  cases l with
  | nil => rfl
  | cons a as =>
    rw [List.dropWhile_cons, h a (by simp)]
    simp

theorem pyStrip_eq_self {l : List Char} (h : ∀ c ∈ l, isPySpace c = false) :
    pyStrip l = l := by
  unfold pyStrip
  rw [dropWhile_eq_self_of h,
    dropWhile_eq_self_of (fun c hc => h c (List.mem_reverse.mp hc)),
    List.reverse_reverse]

theorem not_special_of_isDigit {c : Char} (h : c.isDigit = true) :
    isPySpace c = false ∧ c ≠ '-' ∧ c ≠ '+' := by
  have h1 : c ≠ ' ' := fun hc => by rw [hc] at h; exact absurd h (by decide)
  have h2 : c ≠ '\t' := fun hc => by rw [hc] at h; exact absurd h (by decide)
  have h3 : c ≠ '\n' := fun hc => by rw [hc] at h; exact absurd h (by decide)
  have h4 : c ≠ '\r' := fun hc => by rw [hc] at h; exact absurd h (by decide)
  have h5 : c ≠ '\x0b' := fun hc => by rw [hc] at h; exact absurd h (by decide)
  have h6 : c ≠ '\x0c' := fun hc => by rw [hc] at h; exact absurd h (by decide)
  have h7 : c ≠ '-' := fun hc => by rw [hc] at h; exact absurd h (by decide)
  have h8 : c ≠ '+' := fun hc => by rw [hc] at h; exact absurd h (by decide)
  refine ⟨?_, h7, h8⟩
  unfold isPySpace
  simp only [Bool.or_eq_false_iff, beq_eq_false_iff_ne]
  exact ⟨⟨⟨⟨⟨h1, h2⟩, h3⟩, h4⟩, h5⟩, h6⟩

theorem digitChar_isDigit (n : Nat) : (digitChar n).isDigit = true := by
  unfold digitChar
  split_ifs <;> decide

theorem digitChar_ne_underscore (n : Nat) : digitChar n ≠ '_' := by
  unfold digitChar
  split_ifs <;> decide

theorem digitChar_val {n : Nat} (h : n < 10) : (digitChar n).toNat - 48 = n := by
  unfold digitChar
  split_ifs with h0 h1 h2 h3 h4 h5 h6 h7 h8
  · subst h0; decide
  · subst h1; decide
  · subst h2; decide
  · subst h3; decide
  · subst h4; decide
  · subst h5; decide
  · subst h6; decide
  · subst h7; decide
  · subst h8; decide
  · have h9 : n = 9 := by omega
    subst h9; decide

theorem decChars_ne_nil (n : Nat) : decChars n ≠ [] := by
  rw [decChars]
  split_ifs with h
  · simp
  · simp

theorem decChars_mem (n : Nat) : ∀ c ∈ decChars n, c.isDigit = true ∧ c ≠ '_' := by
  induction n using Nat.strong_induction_on with
  | _ n ih =>
    intro c hc
    rw [decChars] at hc
    by_cases h : n < 10
    · rw [dif_pos h] at hc
      simp at hc
      subst hc
      exact ⟨digitChar_isDigit n, digitChar_ne_underscore n⟩
    · rw [dif_neg h] at hc
      rcases List.mem_append.mp hc with h1 | h2
      · exact ih (n / 10) (Nat.div_lt_self (by omega) (by omega)) c h1
      · simp at h2
        subst h2
        exact ⟨digitChar_isDigit _, digitChar_ne_underscore _⟩

theorem digitsVal_append_singleton (cs : List Char) (c : Char) :
    digitsVal (cs ++ [c]) = 10 * digitsVal cs + (c.toNat - 48) := by
  unfold digitsVal
  rw [List.foldl_append]
  rfl

theorem digitsVal_decChars (n : Nat) : digitsVal (decChars n) = n := by
  induction n using Nat.strong_induction_on with
  | _ n ih =>
    rw [decChars]
    by_cases h : n < 10
    · rw [dif_pos h]
      show 10 * 0 + ((digitChar n).toNat - 48) = n
      rw [digitChar_val h]
      omega
    · rw [dif_neg h]
      rw [digitsVal_append_singleton]
      rw [ih (n / 10) (Nat.div_lt_self (by omega) (by omega))]
      rw [digitChar_val (Nat.mod_lt n (by omega))]
      omega

theorem digitRunsAux_sound (cs : List Char) : ∀ acc, (∀ c ∈ acc, c.isDigit = true) →
    ∀ r ∈ digitRunsAux cs acc, r ≠ [] ∧ ∀ c ∈ r, c.isDigit = true := by
  induction cs with
  | nil =>
    intro acc hacc r hr
    unfold digitRunsAux at hr
    by_cases h : acc.isEmpty
    · rw [if_pos h] at hr
      simp at hr
    · rw [if_neg h] at hr
      simp at hr
      subst hr
      refine ⟨?_, ?_⟩
      · simp only [ne_eq, List.reverse_eq_nil_iff]
        intro hnil
        rw [hnil] at h
        exact h rfl
      · intro c hc
        exact hacc c (List.mem_reverse.mp hc)
  | cons c cs ih =>
    intro acc hacc r hr
    unfold digitRunsAux at hr
    by_cases hd : c.isDigit = true
    · rw [if_pos hd] at hr
      refine ih (c :: acc) ?_ r hr
      intro x hx
      rcases List.mem_cons.mp hx with h1 | h2
      · rw [h1]; exact hd
      · exact hacc x h2
    · rw [if_neg hd] at hr
      by_cases he : acc.isEmpty
      · rw [if_pos he] at hr
        exact ih [] (by simp) r hr
      · rw [if_neg he] at hr
        rcases List.mem_cons.mp hr with h1 | h2
        · subst h1
          refine ⟨?_, ?_⟩
          · simp only [ne_eq, List.reverse_eq_nil_iff]
            intro hnil
            rw [hnil] at he
            exact he rfl
          · intro x hx
            exact hacc x (List.mem_reverse.mp hx)
        · exact ih [] (by simp) r h2

theorem findallDigits_sound {s t : String} (ht : t ∈ findallDigits s) :
    t.data ≠ [] ∧ ∀ c ∈ t.data, c.isDigit = true := by
  unfold findallDigits at ht
  rcases List.mem_map.mp ht with ⟨r, hr, hrt⟩
  have hs := digitRunsAux_sound s.data [] (by simp) r hr
  rw [← hrt]
  exact hs

theorem pyIntParseStripped_cons (c : Char) (rest : List Char) :
    pyIntParseStripped (c :: rest) =
      if c = '-' then
        (if rest ≠ [] ∧ rest.all Char.isDigit then .ok (-(digitsVal rest : Int))
         else .error (.valueError ("invalid literal for int() with base 10")))
      else if c = '+' then
        (if rest ≠ [] ∧ rest.all Char.isDigit then .ok ((digitsVal rest : Int))
         else .error (.valueError ("invalid literal for int() with base 10")))
      else
        (if (c :: rest).all Char.isDigit then .ok ((digitsVal (c :: rest) : Int))
         else .error (.valueError ("invalid literal for int() with base 10"))) := rfl

theorem pyIntParseChars_digits {ds : List Char} (hne : ds ≠ [])
    (hd : ∀ c ∈ ds, c.isDigit = true) :
    pyIntParseChars ds = .ok ((digitsVal ds : Nat) : Int) := by
  have hstrip : pyStrip ds = ds :=
    pyStrip_eq_self (fun c hc => (not_special_of_isDigit (hd c hc)).1)
  unfold pyIntParseChars
  rw [hstrip]
  cases ds with
  | nil => exact absurd rfl hne
  | cons c rest =>
    have hc := hd c (by simp)
    rw [pyIntParseStripped_cons,
      if_neg (not_special_of_isDigit hc).2.1, if_neg (not_special_of_isDigit hc).2.2,
      if_pos (List.all_eq_true.mpr hd)]

theorem pySplitChar_cons (sep c : Char) (cs acc : List Char) :
    pySplitChar sep (c :: cs) acc =
      if c = sep then acc.reverse :: pySplitChar sep cs []
      else pySplitChar sep cs (c :: acc) := rfl

theorem pySplitChar_no_sep (sep : Char) {cs : List Char}
    (h : ∀ c ∈ cs, c ≠ sep) : ∀ acc, pySplitChar sep cs acc = [acc.reverse ++ cs] := by
  induction cs with
  | nil =>
    intro acc
    unfold pySplitChar
    simp
  | cons c cs ih =>
    intro acc
    rw [pySplitChar_cons, if_neg (h c (by simp))]
    rw [ih (fun x hx => h x (by simp [hx])) (c :: acc)]
    simp

theorem pySplit_memeId (i : Nat) :
    pySplit (memeId i) '_' = [("meme"), String.mk (decChars i)] := by
  have hno : ∀ c ∈ decChars i, c ≠ '_' := fun c hc => (decChars_mem i c hc).2
  show (pySplitChar '_' ('m' :: 'e' :: 'm' :: 'e' :: '_' :: decChars i) []).map String.mk = _
  rw [pySplitChar_cons, if_neg (by decide),
    pySplitChar_cons, if_neg (by decide),
    pySplitChar_cons, if_neg (by decide),
    pySplitChar_cons, if_neg (by decide),
    pySplitChar_cons, if_pos rfl,
    pySplitChar_no_sep '_' hno]
  simp

theorem parseMemeOrdinal_memeId (i : Nat) : parseMemeOrdinal (memeId i) = .ok (i : Int) := by
  unfold parseMemeOrdinal
  rw [pySplit_memeId, pyListGet_pair_one]
  show pyIntParseChars (decChars i) = .ok (i : Int)
  rw [pyIntParseChars_digits (decChars_ne_nil i) (fun c hc => (decChars_mem i c hc).1),
    digitsVal_decChars]

theorem except_bind_ok {ε α β : Type} (a : α) (f : α → Except ε β) :
    (Except.ok a : Except ε α).bind f = f a := rfl

theorem except_bind_error {ε α β : Type} (e : ε) (f : α → Except ε β) :
    (Except.error e : Except ε α).bind f = .error e := rfl

theorem except_bind_eq_ok {ε α β : Type} {x : Except ε α} {f : α → Except ε β} {b : β}
    (h : x.bind f = .ok b) : ∃ a, x = .ok a ∧ f a = .ok b := by
  cases x with
  | ok a => exact ⟨a, rfl, h⟩
  | error e => exact Except.noConfusion h

/-! ### Bridging equations for the matchers -/

theorem llmTryBody_client_missing (meme_df : List Row) (apiResult : Except PyExc String)
    (diag : Rat) : llmTryBody meme_df none apiResult diag = .error clientAttributeError := rfl

theorem llmTryBody_api_error (meme_df : List Row) (e : PyExc) (diag : Rat) :
    llmTryBody meme_df (some ()) (.error e) diag = .error e := rfl

theorem llmTryBody_api_ok (meme_df : List Row) (reply : String) (diag : Rat) :
    llmTryBody meme_df (some ()) (.ok reply) diag =
      (if findallDigits reply = [] then .ok { error := some ("No matching memes found") }
       else
         (pyListGet (findallDigits reply) (-1)).bind fun lastNumber =>
           (pyIntParseChars lastNumber.data).bind fun n =>
             if (n - 1 : Int) < 0 ∨ (n - 1 : Int) ≥ (meme_df.length : Int) then
               .ok { error := some ("No matching memes found") }
             else
               (ilocGet meme_df (n - 1)).bind fun meme =>
                 Except.ok { filename := some meme.filename,
                             description := some meme.description,
                             similarity_score := some diag,
                             llm_selected := some true }) := rfl

theorem find_meme_with_llm_of_ok {meme_df : List Row} {client : Option Unit}
    {apiResult : Except PyExc String} {diag : Rat} {res : MatchResult}
    (h : llmTryBody meme_df client apiResult diag = .ok res) :
    find_meme_with_llm meme_df client apiResult diag = res := by
  unfold find_meme_with_llm
  rw [h]

theorem find_meme_with_llm_of_error {meme_df : List Row} {client : Option Unit}
    {apiResult : Except PyExc String} {diag : Rat} {e : PyExc}
    (h : llmTryBody meme_df client apiResult diag = .error e) :
    find_meme_with_llm meme_df client apiResult diag =
      { error := some ("Error processing LLM response: " ++ e.toStr) } := by
  unfold find_meme_with_llm
  rw [h]

theorem fmws_query_none {model : String → List Rat}
    {collectionQuery : List Rat → Nat → Option QueryResult} {meme_df : List Row}
    {context : String} {top_k : Nat}
    (h : collectionQuery (model context) top_k = none) :
    find_meme_with_similarity model collectionQuery meme_df context top_k =
      .ok { error := some ("No matching memes found") } := by
  simp only [find_meme_with_similarity]
  rw [h]

theorem fmws_query_some {model : String → List Rat}
    {collectionQuery : List Rat → Nat → Option QueryResult} {meme_df : List Row}
    {context : String} {top_k : Nat} (results : QueryResult)
    (h : collectionQuery (model context) top_k = some results) :
    find_meme_with_similarity model collectionQuery meme_df context top_k =
      (if results.ids = [] then .ok { error := some ("No matching memes found") }
       else
         (pyListGet results.ids 0).bind fun ids0 =>
           (pyListGet ids0 0).bind fun hit =>
             (parseMemeOrdinal hit).bind fun idx =>
               (ilocGet meme_df idx).bind fun meme =>
                 (match results.distances with
                  | some ds => (pyListGet ds 0).bind fun ds0 => pyListGet ds0 0
                  | none => (Except.ok 0 : Except PyExc Rat)).bind fun score =>
                   Except.ok { filename := some meme.filename,
                               description := some meme.description,
                               similarity_score := some score }) := by
  simp only [find_meme_with_similarity]
  rw [h]

/-! ### Characterization of the LLM matcher on a successful reply -/

theorem llmTryBody_last {meme_df : List Row} {reply ks : String} (diag : Rat)
    (h : (findallDigits reply).getLast? = some ks) :
    llmTryBody meme_df (some ()) (.ok reply) diag =
      .ok (llmDecision meme_df (digitsVal ks.data) diag) := by
  have hmem : ks ∈ findallDigits reply := List.mem_of_getLast?_eq_some h
  have hsound := findallDigits_sound hmem
  have hne : findallDigits reply ≠ [] := by
    intro hl
    rw [hl] at h
    simp at h
  simp only [llmTryBody_api_ok, if_neg hne, pyListGet_neg_one h, except_bind_ok,
    pyIntParseChars_digits hsound.1 hsound.2]
  set k := digitsVal ks.data
  unfold llmDecision
  by_cases hk : k = 0 ∨ meme_df.length < k
  · rw [if_pos (show ((k : Int) - 1 < 0 ∨ (k : Int) - 1 ≥ (meme_df.length : Int)) by omega)]
    rw [if_pos hk]
  · rw [if_neg (show ¬ ((k : Int) - 1 < 0 ∨ (k : Int) - 1 ≥ (meme_df.length : Int)) by omega)]
    rw [if_neg hk]
    push_neg at hk
    have h2 : k - 1 < meme_df.length := by omega
    have hgetq : meme_df.get? (k - 1) = some (meme_df.get ⟨k - 1, h2⟩) := List.get?_eq_get h2
    have hiloc : ilocGet meme_df ((k : Int) - 1) = .ok (meme_df.get ⟨k - 1, h2⟩) := by
      rw [show ((k : Int) - 1) = ((k - 1 : Nat) : Int) by omega]
      exact ilocGet_nat hgetq
    rw [hiloc, except_bind_ok, hgetq]

theorem find_meme_with_llm_last {meme_df : List Row} {reply ks : String} {diag : Rat}
    (h : (findallDigits reply).getLast? = some ks) :
    find_meme_with_llm meme_df (some ()) (.ok reply) diag =
      llmDecision meme_df (digitsVal ks.data) diag :=
  find_meme_with_llm_of_ok (llmTryBody_last diag h)

theorem find_meme_with_llm_no_numbers {meme_df : List Row} {reply : String} {diag : Rat}
    (h : findallDigits reply = []) :
    find_meme_with_llm meme_df (some ()) (.ok reply) diag =
      { error := some ("No matching memes found") } :=
  find_meme_with_llm_of_ok (by rw [llmTryBody_api_ok, if_pos h])

theorem llmDecision_nil (k : Nat) (diag : Rat) :
    llmDecision [] k diag = { error := some ("No matching memes found") } := by
  unfold llmDecision
  rw [if_pos (by simp only [List.length_nil]; omega)]

/-! ### Shape lemmas for the result dictionaries -/

theorem find_meme_with_llm_shape (meme_df : List Row) (client : Option Unit)
    (apiResult : Except PyExc String) (diag : Rat) :
    (successShape (find_meme_with_llm meme_df client apiResult diag) = true ∧
      errorShape (find_meme_with_llm meme_df client apiResult diag) = false) ∨
    (errorShape (find_meme_with_llm meme_df client apiResult diag) = true ∧
      successShape (find_meme_with_llm meme_df client apiResult diag) = false) := by
  cases client with
  | none =>
    rw [find_meme_with_llm_of_error (llmTryBody_client_missing meme_df apiResult diag)]
    right
    simp [successShape, errorShape]
  | some u =>
    cases u
    cases apiResult with
    | error e =>
      rw [find_meme_with_llm_of_error (llmTryBody_api_error meme_df e diag)]
      right
      simp [successShape, errorShape]
    | ok reply =>
      by_cases hn : findallDigits reply = []
      · rw [find_meme_with_llm_no_numbers hn]
        right
        simp [successShape, errorShape]
      · rw [find_meme_with_llm_last (List.getLast?_eq_getLast_of_ne_nil hn)]
        unfold llmDecision
        by_cases hk : digitsVal ((findallDigits reply).getLast hn).data = 0 ∨
            meme_df.length < digitsVal ((findallDigits reply).getLast hn).data
        · rw [if_pos hk]
          right
          simp [successShape, errorShape]
        · rw [if_neg hk]
          cases hq : meme_df.get? (digitsVal ((findallDigits reply).getLast hn).data - 1) with
          | none =>
            right
            simp [successShape, errorShape]
          | some meme =>
            left
            simp [successShape, errorShape]

theorem fmws_ok_shape {model : String → List Rat}
    {collectionQuery : List Rat → Nat → Option QueryResult} {meme_df : List Row}
    {context : String} {top_k : Nat} {r : MatchResult}
    (h : find_meme_with_similarity model collectionQuery meme_df context top_k = .ok r) :
    (successShape r = true ∧ errorShape r = false) ∨
    (errorShape r = true ∧ successShape r = false) := by
  cases hq : collectionQuery (model context) top_k with
  | none =>
    rw [fmws_query_none hq] at h
    injection h with h
    rw [← h]
    right
    simp [successShape, errorShape]
  | some results =>
    rw [fmws_query_some results hq] at h
    by_cases hids : results.ids = []
    · rw [if_pos hids] at h
      injection h with h
      rw [← h]
      right
      simp [successShape, errorShape]
    · rw [if_neg hids] at h
      rcases except_bind_eq_ok h with ⟨ids0, h1, h⟩
      rcases except_bind_eq_ok h with ⟨hit, h2, h⟩
      rcases except_bind_eq_ok h with ⟨idx, h3, h⟩
      rcases except_bind_eq_ok h with ⟨meme, h4, h⟩
      rcases except_bind_eq_ok h with ⟨score, h5, h⟩
      injection h with h
      rw [← h]
      left
      simp [successShape, errorShape]

/-! ### Claim theorems -/

/-- C1: with an empty catalogue, the LLM matcher returns the
`"No matching memes found"` dictionary for every successful reply, and
the similarity matcher returns it when the query result dict is falsy;
but on the result shape chromadb actually produces for an empty
collection (`ids = [[]]`, one empty hit list per query embedding), the
guard at line 95 does not fire and line 99 raises IndexError instead of
returning the error dictionary — refuting the "never raises" half of the
claim. -/
theorem C1_empty_catalogue_behaviour (reply context : String) (diag : Rat) (top_k : Nat) :
    find_meme_with_llm [] (some ()) (.ok reply) diag =
      { error := some ("No matching memes found") } ∧
    find_meme_with_similarity zeroModel noneQuery [] context top_k =
      .ok { error := some ("No matching memes found") } ∧
    find_meme_with_similarity zeroModel emptyHitQuery [] context top_k =
      .error (.indexError ("list index out of range")) := by
  refine ⟨?_, ?_, ?_⟩
  · by_cases hn : findallDigits reply = []
    · exact find_meme_with_llm_no_numbers hn
    · rw [find_meme_with_llm_last (List.getLast?_eq_getLast_of_ne_nil hn), llmDecision_nil]
  · exact fmws_query_none rfl
  · rfl

/-- C2: for a catalogue of size `N` and an LLM reply whose last parsed
integer is `k`, the LLM matcher returns the `"No matching memes found"`
dictionary when `k = 0` (the only way a `\d+` match is `<= 0`) or
`k > N`, and returns the catalogue entry at 0-based index `k - 1`
(filename and description) with `llm_selected = true` when
`1 <= k <= N`. -/
theorem C2_llm_answer_range (meme_df : List Row) (reply ks : String) (diag : Rat)
    (hlast : (findallDigits reply).getLast? = some ks) :
    ((digitsVal ks.data = 0 ∨ meme_df.length < digitsVal ks.data) →
      find_meme_with_llm meme_df (some ()) (.ok reply) diag =
        { error := some ("No matching memes found") }) ∧
    (∀ meme : Row, meme_df.get? (digitsVal ks.data - 1) = some meme →
      1 ≤ digitsVal ks.data →
      find_meme_with_llm meme_df (some ()) (.ok reply) diag =
        { filename := some meme.filename, description := some meme.description,
          similarity_score := some diag, llm_selected := some true }) := by
  constructor
  · intro hrange
    rw [find_meme_with_llm_last hlast]
    unfold llmDecision
    rw [if_pos hrange]
  · intro meme hget h1
    have h2 : digitsVal ks.data - 1 < meme_df.length := by
      rw [List.get?_eq_getElem?] at hget
      exact (List.getElem?_eq_some_iff.mp hget).1
    rw [find_meme_with_llm_last hlast]
    unfold llmDecision
    rw [if_neg (by omega), hget]

theorem C2_witness :
    find_meme_with_llm [{ filename := ("cat.png"), description := some ("a cat") }]
        (some ()) (.ok ("7")) 0 =
      { error := some ("No matching memes found") } ∧
    find_meme_with_llm [{ filename := ("cat.png"), description := some ("a cat") }]
        (some ()) (.ok ("Answer: 1")) 0 =
      { filename := some ("cat.png"), description := some (some ("a cat")),
        similarity_score := some 0, llm_selected := some true } :=
  ⟨(C2_llm_answer_range [{ filename := ("cat.png"), description := some ("a cat") }]
      ("7") ("7") 0 (by decide)).1 (by decide),
   (C2_llm_answer_range [{ filename := ("cat.png"), description := some ("a cat") }]
      ("Answer: 1") ("1") 0 (by decide)).2
     { filename := ("cat.png"), description := some ("a cat") } (by decide) (by decide)⟩

/-- C3: the LLM matcher's answer is always read off the last integer
substring of the reply: with no integer substring it returns the
`"No matching memes found"` dictionary, and otherwise its result is the
decision taken at the value of the last digit run; on
`"I think it's 3, final answer 7"` the digit runs are `["3", "7"]` and
the selected 1-based answer is `7`, not `3`. -/
theorem C3_last_integer_selected (meme_df : List Row) (diag : Rat) :
    (∀ reply : String, findallDigits reply = [] →
      find_meme_with_llm meme_df (some ()) (.ok reply) diag =
        { error := some ("No matching memes found") }) ∧
    (∀ reply ks : String, (findallDigits reply).getLast? = some ks →
      find_meme_with_llm meme_df (some ()) (.ok reply) diag =
        llmDecision meme_df (digitsVal ks.data) diag) ∧
    findallDigits ("I think it\x27s 3, final answer 7") = [("3"), ("7")] ∧
    ((findallDigits ("I think it\x27s 3, final answer 7")).getLast?.map
        (fun t => digitsVal t.data)) = some 7 := by
  refine ⟨?_, ?_, by decide, by decide⟩
  · intro reply hr
    exact find_meme_with_llm_no_numbers hr
  · intro reply ks h
    exact find_meme_with_llm_last h

theorem C3_witness :
    find_meme_with_llm [] (some ()) (.ok ("I think it\x27s 3, final answer 7")) 0 =
      llmDecision [] 7 0 := by
  have h := (C3_last_integer_selected [] 0).2.1 ("I think it\x27s 3, final answer 7") ("7")
    (by decide)
  rw [h, show digitsVal ("7").data = 7 from by decide]

/-- C4: a transport or API exception raised by the remote chat-completion
call inside the LLM matcher is caught by the `except Exception` handler
and converted to the dictionary whose only key is
`error = "Error processing LLM response: " + str(e)`; the facade returns
that dictionary normally (never re-raises). -/
theorem C4_llm_fault_caught (meme_df : List Row) (model : String → List Rat)
    (collectionQuery : List Rat → Nat → Option QueryResult) (context : String)
    (e : PyExc) (diag : Rat) (top_k : Nat) :
    find_relevant_meme
        { meme_df := meme_df, model := model, collectionQuery := collectionQuery,
          use_llm := true, client := some () }
        context (.error e) diag top_k =
      .ok { error := some ("Error processing LLM response: " ++ e.toStr) } := rfl

/-- C5: every result dictionary normally returned by `find_relevant_meme`,
on either path, either carries the success keys (filename, description,
similarity_score) and no error key, or carries only the error key — never
both and never neither. -/
theorem C5_result_shape (mf : MemeFinder) (context : String)
    (apiResult : Except PyExc String) (diag : Rat) (top_k : Nat) (r : MatchResult)
    (h : find_relevant_meme mf context apiResult diag top_k = .ok r) :
    (successShape r = true ∧ errorShape r = false) ∨
    (errorShape r = true ∧ successShape r = false) := by
  by_cases hul : mf.use_llm = true
  · simp only [find_relevant_meme, if_pos hul] at h
    injection h with h
    rw [← h]
    exact find_meme_with_llm_shape mf.meme_df mf.client apiResult diag
  · simp only [find_relevant_meme, if_neg hul] at h
    exact fmws_ok_shape h

theorem C5_witness :
    (successShape { error := some ("No matching memes found") } = true ∧
      errorShape { error := some ("No matching memes found") } = false) ∨
    (errorShape { error := some ("No matching memes found") } = true ∧
      successShape { error := some ("No matching memes found") } = false) :=
  C5_result_shape
    { meme_df := [], model := zeroModel, collectionQuery := noneQuery,
      use_llm := false, client := none }
    ("q") (.ok ("")) 0 1 { error := some ("No matching memes found") } rfl

/-- C6: round-trip of the synthetic index keys: population stores
`"meme_<i>"` at ordinal `i`, the parse at line 99 recovers exactly `i`
from that identifier, and a nearest-neighbour hit whose id is
`"meme_<i>"` makes the similarity matcher return the catalogue entry at
ordinal `i` (its filename and description) with the reported distance as
score. -/
theorem C6_id_roundtrip (meme_df : List Row) (i : Nat) (meme : Row)
    (hget : meme_df.get? i = some meme) (model : String → List Rat)
    (context : String) (top_k : Nat) (d : Rat) :
    (populateIds meme_df).get? i = some (memeId i) ∧
    parseMemeOrdinal (memeId i) = .ok (i : Int) ∧
    find_meme_with_similarity model
        (fun _ _ => some { ids := [[memeId i]], distances := some [[d]] })
        meme_df context top_k =
      .ok { filename := some meme.filename, description := some meme.description,
            similarity_score := some d } := by
  have hlen : i < meme_df.length := by
    rw [List.get?_eq_getElem?] at hget
    exact (List.getElem?_eq_some_iff.mp hget).1
  refine ⟨?_, parseMemeOrdinal_memeId i, ?_⟩
  · unfold populateIds
    rw [List.get?_eq_getElem?, List.getElem?_map, List.getElem?_range hlen]
    rfl
  · rw [fmws_query_some { ids := [[memeId i]], distances := some [[d]] } rfl]
    simp [pyListGet_zero, except_bind_ok, parseMemeOrdinal_memeId i, ilocGet_nat hget]

theorem C6_witness :
    (populateIds [{ filename := ("cat.png"), description := some ("a cat") }]).get? 0 =
      some (memeId 0) ∧
    parseMemeOrdinal (memeId 0) = .ok (0 : Int) ∧
    find_meme_with_similarity zeroModel
        (fun _ _ => some { ids := [[memeId 0]], distances := some [[0]] })
        [{ filename := ("cat.png"), description := some ("a cat") }] ("q") 1 =
      .ok { filename := some ("cat.png"), description := some (some ("a cat")),
            similarity_score := some 0 } :=
  C6_id_roundtrip [{ filename := ("cat.png"), description := some ("a cat") }] 0
    { filename := ("cat.png"), description := some ("a cat") } rfl zeroModel ("q") 1 0

/-- C7 counterexample: when the persisted collection is non-empty at
construction time (`collection.count() != 0`), `_populate_chroma_db` — and
with it the `fillna` normalization — is skipped, so a missing (NaN)
description survives into the loaded catalogue and is read back as a
present-but-NaN `description` value by the LLM matcher, refuting the
claim that the description read back is never null. -/
theorem C7_warm_start_counterexample :
    (mkMemeFinder [{ filename := ("a.png"), description := none }] 1 zeroModel noneQuery
        true (some ("t")) none).meme_df =
      [{ filename := ("a.png"), description := none }] ∧
    find_relevant_meme
        (mkMemeFinder [{ filename := ("a.png"), description := none }] 1 zeroModel noneQuery
          true (some ("t")) none)
        ("ctx") (.ok ("1")) 0 1 =
      .ok { filename := some ("a.png"), description := some none,
            similarity_score := some 0, llm_selected := some true } :=
  ⟨rfl, rfl⟩

/-- C7 (amended): only on a cold start — the persisted collection empty at
construction, so `_populate_chroma_db` runs — is every catalogue
description normalized to a string (missing values to `""`); then no
matcher can read back a null description. -/
theorem C7_cold_start_normalizes (raw : List Row) (model : String → List Rat)
    (collectionQuery : List Rat → Nat → Option QueryResult) (use_llm : Bool)
    (hf_token env_hf_token : Option String) (r : Row)
    (hr : r ∈ (mkMemeFinder raw 0 model collectionQuery use_llm hf_token env_hf_token).meme_df) :
    r.description ≠ none ∧ ∃ s : String, r.description = some s := by
  have hdf : (mkMemeFinder raw 0 model collectionQuery use_llm hf_token env_hf_token).meme_df
      = raw.map fillnaRow := by
    simp [mkMemeFinder]
  rw [hdf] at hr
  rcases List.mem_map.mp hr with ⟨r0, _hr0, hmap⟩
  rw [← hmap]
  exact ⟨by simp [fillnaRow], r0.description.getD (""), by simp [fillnaRow]⟩

theorem C7_witness :
    ({ filename := ("a.png"), description := some ("") } : Row).description ≠ none ∧
    ∃ s : String,
      ({ filename := ("a.png"), description := some ("") } : Row).description = some s :=
  C7_cold_start_normalizes [{ filename := ("a.png"), description := none }] zeroModel
    noneQuery false none none { filename := ("a.png"), description := some ("") } (by decide)

/-- C8: the similarity matcher is deterministic — for a fixed catalogue,
fixed embedding model and fixed index contents, two calls with identical
query text produce identical result dictionaries. -/
theorem C8_similarity_deterministic (model : String → List Rat)
    (collectionQuery : List Rat → Nat → Option QueryResult) (meme_df : List Row)
    (q1 q2 : String) (top_k : Nat) (h : q1 = q2) :
    find_meme_with_similarity model collectionQuery meme_df q1 top_k =
      find_meme_with_similarity model collectionQuery meme_df q2 top_k := by
  rw [h]

theorem C8_witness :
    find_meme_with_similarity zeroModel noneQuery [] ("hello") 1 =
      find_meme_with_similarity zeroModel noneQuery [] ("hello") 1 :=
  C8_similarity_deterministic zeroModel noneQuery [] ("hello") ("hello") 1 rfl

/-- C9: constructing with `use_llm = True` but no truthy token (neither
the `hf_token` argument nor the HF_TOKEN environment variable) leaves
`self.client` unassigned, so every `find_relevant_meme` call takes the
LLM path, the attribute access raises inside the `try`, and the call
returns the `"Error processing LLM response: ..."` dictionary instead of
raising. -/
theorem C9_no_token_error_dict (raw : List Row) (collectionCount : Nat)
    (model : String → List Rat) (collectionQuery : List Rat → Nat → Option QueryResult)
    (hf_token env_hf_token : Option String) (context : String)
    (apiResult : Except PyExc String) (diag : Rat) (top_k : Nat)
    (ha : pyTruthy hf_token = false) (he : pyTruthy env_hf_token = false) :
    find_relevant_meme
        (mkMemeFinder raw collectionCount model collectionQuery true hf_token env_hf_token)
        context apiResult diag top_k =
      .ok { error := some ("Error processing LLM response: " ++ clientAttributeError.toStr) } := by
  have htok : pyTruthy (pyOr hf_token env_hf_token) = false := by
    cases hf_token with
    | none => exact he
    | some s =>
      simp only [pyTruthy] at ha
      by_cases hs : s = ""
      · simp only [pyOr, if_pos hs]
        exact he
      · rw [if_neg hs] at ha
        exact absurd ha (by simp)
  have hclient :
      (mkMemeFinder raw collectionCount model collectionQuery true hf_token
        env_hf_token).client = none := by
    simp only [mkMemeFinder]
    rw [htok]
    simp
  have hul :
      (mkMemeFinder raw collectionCount model collectionQuery true hf_token
        env_hf_token).use_llm = true := rfl
  simp only [find_relevant_meme, if_pos hul]
  rw [hclient, find_meme_with_llm_of_error (llmTryBody_client_missing _ _ _)]

theorem C9_witness :
    find_relevant_meme
        (mkMemeFinder [] 0 zeroModel noneQuery true none (some ("")))
        ("q") (.ok ("1")) 0 1 =
      .ok { error := some ("Error processing LLM response: " ++ clientAttributeError.toStr) } :=
  C9_no_token_error_dict [] 0 zeroModel noneQuery none (some ("")) ("q") (.ok ("1")) 0 1
    rfl (by decide)

/-- C10: the gradio wrapper returns the hosted-prediction value on success
and `None` when the call raises any exception; the exception is swallowed
and `None` is the only failure signal (no error dictionary). -/
theorem C10_gradio_catch_all (α : Type) (r : α) (e : PyExc) :
    gradio_find_relevant_meme (Except.ok r) = some r ∧
    gradio_find_relevant_meme (Except.error e : Except PyExc α) = none :=
  ⟨rfl, rfl⟩

end MemeAgent
